import Mathlib

/-!
Shallow embedding of `rosbag2_storage`'s backend resolution logic
(`src/rosbag2_storage/src/rosbag2_storage/impl/storage_factory_impl.hpp`).

A storage backend plugin is modelled by its externally visible behaviour:
its registered name, the value of `get_file_extension()`, whether
`createUnmanagedInstance` succeeds for it, and whether `open(options, flag)`
succeeds for a given uri and IO flag.  The pluginlib class loader is
modelled as the ordered list of registered backends
(`getDeclaredClasses` order).  Each resolution returns the ordered trace of
observable events (instantiations and open attempts) together with a
result: an opened instance, `nullptr`, or an exception that escaped the
function (C++ exceptions not caught by any handler on the path).
-/

namespace Rosbag2Storage

/-- IO flag passed to a backend's open call (storage_interfaces::IOFlag). -/
inductive IOFlag where
  | READ_ONLY
  | READ_WRITE
deriving DecidableEq, Repr

/-- Behavioural model of one registered storage plugin. -/
structure Backend where
  name : String
  file_extension : String
  create_ok : Bool
  open_ok : String → IOFlag → Bool

/-- Observable events of one resolution, in order of occurrence:
`created n` is a successful `createUnmanagedInstance(n)`, `createFailed n`
a throwing one; `openOk n e fl` / `openFail n e fl` are open attempts on
the instance named `n` with declared extension `e`, using IO flag `fl`. -/
inductive Event where
  | created (name : String)
  | createFailed (name : String)
  | openOk (name : String) (ext : String) (flag : IOFlag)
  | openFail (name : String) (ext : String) (flag : IOFlag)
deriving DecidableEq, Repr

/-- Result of a resolution: a returned opened instance, a returned
`nullptr`, or an exception escaping the function. -/
inductive Res where
  | found (b : Backend)
  | noInstance
  | exn

/-- StorageOptions: the target uri and the (possibly empty) explicit
storage plugin id. -/
structure StorageOptions where
  uri : String
  storage_id : String

/-- Modelled from the spec: the Extension Matcher contract implemented by
the external helper `rcpputils::fs::path::extension`, which is not part of
this repository.  Per the spec it yields the substring after the final `.`
of the last path segment, or the empty string when that segment has no `.`. -/
def extensionOf (s : String) : String :=
  let revSeg := s.data.reverse.takeWhile (fun c => c != '/')
  if '.' ∈ revSeg then String.mk (revSeg.takeWhile (fun c => c != '.')).reverse else ""

/-- Loop body of `detect_and_open_storage` (lines 66-89).  For each
registered class, `createUnmanagedInstance` runs first (line 68, outside
every try block: a failure there escapes the whole function).  The
extension gate (line 69) then decides whether this instance is attempted:
when it is, the open attempt either returns the instance (first success
wins) or is caught and the loop continues. -/
def detect_loop (flag : IOFlag) (use_ext : Bool) (input_ext uri : String) :
    List Backend → List Event × Res
  | [] => ([], Res.noInstance)
  | b :: rest =>
    if b.create_ok then
      if !use_ext || b.file_extension == input_ext then
        if b.open_ok uri flag then
          ([Event.created b.name, Event.openOk b.name b.file_extension flag], Res.found b)
        else
          (Event.created b.name :: Event.openFail b.name b.file_extension flag ::
              (detect_loop flag use_ext input_ext uri rest).1,
            (detect_loop flag use_ext input_ext uri rest).2)
      else
        (Event.created b.name :: (detect_loop flag use_ext input_ext uri rest).1,
          (detect_loop flag use_ext input_ext uri rest).2)
    else
      ([Event.createFailed b.name], Res.exn)

/-- `detect_and_open_storage` (lines 52-91): computes the uri's extension
token and sets `use_extension` iff the flag is `READ_WRITE`, then runs the
candidate loop over the registered classes. -/
def detect_and_open_storage (flag : IOFlag) (loader : List Backend)
    (opts : StorageOptions) : List Event × Res :=
  detect_loop flag (flag == IOFlag.READ_WRITE) (extensionOf opts.uri) opts.uri loader

/-- The two capability interfaces a class loader can be scoped to. -/
inductive Interface where
  | ReadOnlyInterface
  | ReadWriteInterface
deriving DecidableEq

/-- Modelled from the spec: `StorageTraits<InterfaceT>::io_flag`, declared
in `rosbag2_storage/storage_traits.hpp` which is not under `src/`.  Per the
spec the read-only capability resolves with io mode ReadOnly and the
read-write capability with io mode ReadWrite. -/
def io_flag : Interface → IOFlag
  | Interface.ReadOnlyInterface => IOFlag.READ_ONLY
  | Interface.ReadWriteInterface => IOFlag.READ_WRITE

/-- `get_interface_instance<InterfaceT, flag>` (lines 98-137).  With an
empty `storage_id` it delegates to `detect_and_open_storage` (line 103)
without explicit template arguments, so that call uses the DEFAULT flag
`StorageTraits<InterfaceT>::io_flag`, not the `flag` this function was
instantiated with.  With a non-empty `storage_id` it looks the id up among
the declared classes, instantiates it inside a try block (failure caught,
returns `nullptr`), then opens it with `flag` inside a try block (failure
caught, returns `nullptr`). -/
def get_interface_instance (iface : Interface) (flag : IOFlag)
    (loader : List Backend) (opts : StorageOptions) : List Event × Res :=
  if opts.storage_id = "" then
    detect_and_open_storage (io_flag iface) loader opts
  else
    match loader.find? (fun b => b.name == opts.storage_id) with
    | none => ([], Res.noInstance)
    | some b =>
      if b.create_ok then
        if b.open_ok opts.uri flag then
          ([Event.created b.name, Event.openOk b.name b.file_extension flag], Res.found b)
        else
          ([Event.created b.name, Event.openFail b.name b.file_extension flag], Res.noInstance)
      else
        ([Event.createFailed b.name], Res.noInstance)

/-- `StorageFactoryImpl::open_read_write` (lines 161-172): one resolution
against the read-write class loader. -/
def open_read_write (rwLoader : List Backend) (opts : StorageOptions) :
    List Event × Res :=
  get_interface_instance Interface.ReadWriteInterface IOFlag.READ_WRITE rwLoader opts

/-- `StorageFactoryImpl::open_read_only` (lines 174-192): first a
resolution against the read-only class loader; if that returns `nullptr`,
a second resolution against the read-write class loader instantiated with
flag `READ_ONLY`.  An exception in the first resolution propagates. -/
def open_read_only (roLoader rwLoader : List Backend) (opts : StorageOptions) :
    List Event × Res :=
  match get_interface_instance Interface.ReadOnlyInterface IOFlag.READ_ONLY roLoader opts with
  | (tr, Res.found b) => (tr, Res.found b)
  | (tr, Res.exn) => (tr, Res.exn)
  | (tr, Res.noInstance) =>
    (tr ++ (get_interface_instance Interface.ReadWriteInterface IOFlag.READ_ONLY rwLoader opts).1,
      (get_interface_instance Interface.ReadWriteInterface IOFlag.READ_ONLY rwLoader opts).2)

/-! Sample backends used for concrete evaluations. -/

/-- A backend whose `createUnmanagedInstance` throws. -/
def badBackend : Backend :=
  { name := "bad", file_extension := "db3", create_ok := false, open_ok := fun _ _ => true }

/-- A healthy backend for extension `db3` whose open always succeeds. -/
def goodBackend : Backend :=
  { name := "good", file_extension := "db3", create_ok := true, open_ok := fun _ _ => true }

/-- A backend for extension `db3` that opens successfully only read-only. -/
def roBackendC : Backend :=
  { name := "C", file_extension := "db3", create_ok := true,
    open_ok := fun _ fl => fl == IOFlag.READ_ONLY }

/-- A backend declaring extension `db`, open always succeeds. -/
def backendA : Backend :=
  { name := "A", file_extension := "db", create_ok := true, open_ok := fun _ _ => true }

/-- A backend declaring extension `db` whose instantiation throws. -/
def backendAbad : Backend :=
  { name := "A", file_extension := "db", create_ok := false, open_ok := fun _ _ => true }

/-- A backend declaring the empty extension. -/
def backendZ : Backend :=
  { name := "Z", file_extension := "", create_ok := true, open_ok := fun _ _ => true }

/-- Spec-shaped definition, following the spec's words for the read-only
auto-detect path (section 4.2: first-success-wins over enumeration order,
no extension filtering): the first backend whose open succeeds read-only. -/
def ro_first_success (uri : String) : List Backend → Option Backend
  | [] => none
  | b :: rest =>
    if b.open_ok uri IOFlag.READ_ONLY then some b else ro_first_success uri rest

/-- Spec-shaped attempt trace for the read-only auto-detect path: every
candidate up to and including the first success is instantiated and gets
an open attempt; each open failure is followed by the next candidate. -/
def ro_attempt_trace (uri : String) : List Backend → List Event
  | [] => []
  | b :: rest =>
    if b.open_ok uri IOFlag.READ_ONLY then
      [Event.created b.name, Event.openOk b.name b.file_extension IOFlag.READ_ONLY]
    else
      Event.created b.name :: Event.openFail b.name b.file_extension IOFlag.READ_ONLY ::
        ro_attempt_trace uri rest

/-! General lemmas about the embedded operations. -/

theorem takeWhile_append_all {α : Type} (p : α → Bool) (l1 l2 : List α)
    (h : ∀ a ∈ l1, p a = true) :
    (l1 ++ l2).takeWhile p = l1 ++ l2.takeWhile p := by
  induction l1 with
  | nil => simp
  | cons x xs ih =>
    have hx := h x (by simp)
    simp [List.takeWhile_cons, hx, ih (fun a ha => h a (by simp [ha]))]

theorem takeWhile_all {α : Type} (p : α → Bool) (l : List α)
    (h : ∀ a ∈ l, p a = true) : l.takeWhile p = l := by
  have := takeWhile_append_all p l [] h
  simpa using this

/-- When the location is `p ++ "." ++ e` with `e` free of dots and
separators, the extension token is `e`. -/
theorem extensionOf_append_dot (p e : String) (hdot : '.' ∉ e.data)
    (hslash : '/' ∉ e.data) :
    extensionOf (p ++ "." ++ e) = e := by
  have hdata : (p ++ "." ++ e).data = p.data ++ '.' :: e.data := by
    simp [String.data_append]
  have hseg : (p ++ "." ++ e).data.reverse.takeWhile (fun c => c != '/') =
      e.data.reverse ++ '.' :: p.data.reverse.takeWhile (fun c => c != '/') := by
    rw [hdata, List.reverse_append]
    rw [show ('.' :: e.data).reverse = e.data.reverse ++ ['.'] by simp]
    rw [List.append_assoc, List.singleton_append]
    rw [takeWhile_append_all (fun c => c != '/') e.data.reverse _
      (fun a ha => bne_iff_ne.mpr (fun hEq => hslash (by
        rw [hEq] at ha; exact List.mem_reverse.mp ha)))]
    simp [List.takeWhile_cons]
  unfold extensionOf
  rw [hseg]
  rw [if_pos (by simp :
    ('.' : Char) ∈ e.data.reverse ++ '.' :: p.data.reverse.takeWhile (fun c => c != '/'))]
  rw [takeWhile_append_all (fun c => c != '.') e.data.reverse _
    (fun a ha => bne_iff_ne.mpr (fun hEq => hdot (by
      rw [hEq] at ha; exact List.mem_reverse.mp ha)))]
  simp [List.takeWhile_cons]

/-- When the last path segment contains no dot, the extension token is
empty: both for a location with a separator and for a bare segment. -/
theorem extensionOf_no_dot_segment (p seg : String) (hdot : '.' ∉ seg.data)
    (hslash : '/' ∉ seg.data) :
    extensionOf (p ++ "/" ++ seg) = "" ∧ extensionOf seg = "" := by
  have hall : ∀ a ∈ seg.data.reverse, (fun c => c != '/') a = true :=
    fun a ha => bne_iff_ne.mpr (fun hEq => hslash (by
      rw [hEq] at ha; exact List.mem_reverse.mp ha))
  have hnm : ('.' : Char) ∉ seg.data.reverse :=
    fun hmem => hdot (List.mem_reverse.mp hmem)
  constructor
  · have hdata : (p ++ "/" ++ seg).data = p.data ++ '/' :: seg.data := by
      simp [String.data_append]
    have hseg : (p ++ "/" ++ seg).data.reverse.takeWhile (fun c => c != '/') =
        seg.data.reverse := by
      rw [hdata, List.reverse_append]
      rw [show ('/' :: seg.data).reverse = seg.data.reverse ++ ['/'] by simp]
      rw [List.append_assoc, List.singleton_append]
      rw [takeWhile_append_all (fun c => c != '/') seg.data.reverse _ hall]
      simp [List.takeWhile_cons]
    unfold extensionOf
    rw [hseg, if_neg hnm]
  · have hseg : seg.data.reverse.takeWhile (fun c => c != '/') = seg.data.reverse :=
      takeWhile_all _ _ hall
    unfold extensionOf
    rw [hseg, if_neg hnm]

/-- In the auto-detect loop with extension gating on, every open attempt
(successful or not) is on an instance whose declared extension equals the
input extension token, and uses the loop's flag. -/
theorem detect_loop_open_events_ext (flag : IOFlag) (input_ext uri : String)
    (l : List Backend) (n e : String) (fl : IOFlag)
    (h : Event.openOk n e fl ∈ (detect_loop flag true input_ext uri l).1 ∨
         Event.openFail n e fl ∈ (detect_loop flag true input_ext uri l).1) :
    e = input_ext ∧ fl = flag := by
  induction l with
  | nil => simp [detect_loop] at h
  | cons b rest ih =>
    by_cases hc : b.create_ok = true
    · by_cases hg : (b.file_extension == input_ext) = true
      · have hge : b.file_extension = input_ext := by simpa using hg
        by_cases ho : b.open_ok uri flag = true
        · simp [detect_loop, hc, hg, ho] at h
          exact ⟨hge ▸ h.2.1, h.2.2⟩
        · simp [detect_loop, hc, hg, ho] at h
          rcases h with hmem | ⟨_, he, hf⟩ | hmem
          · exact ih (Or.inl hmem)
          · exact ⟨hge ▸ he, hf⟩
          · exact ih (Or.inr hmem)
      · simp [detect_loop, hc, hg] at h
        exact ih h
    · simp [detect_loop, hc] at h

/-- Refinement of the read-only auto-detect loop: when every candidate's
instantiation succeeds, the loop is exactly the spec's first-success-wins
scan with no extension filtering. -/
theorem detect_loop_ro (input_ext uri : String) (l : List Backend)
    (hc : ∀ b ∈ l, b.create_ok = true) :
    detect_loop IOFlag.READ_ONLY false input_ext uri l =
      (ro_attempt_trace uri l,
       match ro_first_success uri l with
       | some b => Res.found b
       | none => Res.noInstance) := by
  induction l with
  | nil => rfl
  | cons b rest ih =>
    have hcb : b.create_ok = true := hc b (by simp)
    have hcr : ∀ x ∈ rest, x.create_ok = true := fun x hx => hc x (by simp [hx])
    by_cases ho : b.open_ok uri IOFlag.READ_ONLY = true
    · simp [detect_loop, ro_attempt_trace, ro_first_success, hcb, ho]
    · simp [detect_loop, ro_attempt_trace, ro_first_success, hcb, ho, ih hcr]

/-- An instance returned by the auto-detect loop had a successful open
call, recorded in the trace with the loop's flag. -/
theorem detect_loop_found_open (flag : IOFlag) (use_ext : Bool) (input_ext uri : String)
    (l : List Backend) (b : Backend)
    (h : (detect_loop flag use_ext input_ext uri l).2 = Res.found b) :
    b.open_ok uri flag = true ∧
    Event.openOk b.name b.file_extension flag ∈ (detect_loop flag use_ext input_ext uri l).1 := by
  induction l with
  | nil => simp [detect_loop] at h
  | cons x rest ih =>
    by_cases hc : x.create_ok = true
    · by_cases hg : (!use_ext || x.file_extension == input_ext) = true
      · by_cases ho : x.open_ok uri flag = true
        · simp only [detect_loop, hc, hg, ho, if_true] at h ⊢
          simp at h
          subst h
          exact ⟨ho, by simp⟩
        · simp only [detect_loop, hc, hg, ho] at h ⊢
          simp [ho] at h ⊢
          exact ih h
      · simp only [detect_loop, hc, hg] at h ⊢
        simp [hg] at h ⊢
        exact ih h
    · simp [detect_loop, hc] at h

/-- With extension gating on and an empty input token, a candidate with a
non-empty declared extension never reaches an open attempt. -/
theorem detect_loop_empty_ext_no_opens (flag : IOFlag) (uri : String) (l : List Backend)
    (hne : ∀ b ∈ l, b.file_extension ≠ "") (n e : String) (fl : IOFlag) :
    Event.openOk n e fl ∉ (detect_loop flag true "" uri l).1 ∧
    Event.openFail n e fl ∉ (detect_loop flag true "" uri l).1 := by
  induction l with
  | nil => simp [detect_loop]
  | cons b rest ih =>
    have hb : (b.file_extension == "") = false := by
      simpa using hne b (by simp)
    have ihr := ih (fun x hx => hne x (by simp [hx]))
    by_cases hc : b.create_ok = true
    · simp [detect_loop, hc, hb]
      exact ⟨ihr.1, ihr.2⟩
    · simp [detect_loop, hc]

/-- Explicit-id resolution with an id absent from the declared classes
returns `nullptr` without touching any backend. -/
theorem gii_explicit_absent (iface : Interface) (fl : IOFlag) (loader : List Backend)
    (opts : StorageOptions) (hid : opts.storage_id ≠ "")
    (habs : ∀ b ∈ loader, b.name ≠ opts.storage_id) :
    get_interface_instance iface fl loader opts = ([], Res.noInstance) := by
  have hfind : loader.find? (fun b => b.name == opts.storage_id) = none := by
    rw [List.find?_eq_none]
    intro x hx
    simpa using habs x hx
  simp [get_interface_instance, hid, hfind]

/-- Explicit-id resolution on a present id whose instantiation succeeds:
one open attempt on that backend with the requested flag decides the
whole resolution. -/
theorem gii_explicit_present (iface : Interface) (fl : IOFlag) (loader : List Backend)
    (opts : StorageOptions) (b : Backend) (hid : opts.storage_id ≠ "")
    (hfind : loader.find? (fun x => x.name == opts.storage_id) = some b)
    (hc : b.create_ok = true) :
    get_interface_instance iface fl loader opts =
      if b.open_ok opts.uri fl then
        ([Event.created b.name, Event.openOk b.name b.file_extension fl], Res.found b)
      else
        ([Event.created b.name, Event.openFail b.name b.file_extension fl], Res.noInstance) := by
  by_cases ho : b.open_ok opts.uri fl = true <;>
    simp [get_interface_instance, hid, hfind, hc, ho]

/-- Any instance returned by `get_interface_instance` had a successful
open call, with either the interface's default flag (auto-detect path,
because line 103 drops the explicit flag) or the requested flag
(explicit-id path), and the trace records it. -/
theorem gii_found_open (iface : Interface) (fl : IOFlag) (loader : List Backend)
    (opts : StorageOptions) (b : Backend)
    (h : (get_interface_instance iface fl loader opts).2 = Res.found b) :
    ∃ fl2, (fl2 = io_flag iface ∨ fl2 = fl) ∧ b.open_ok opts.uri fl2 = true ∧
      Event.openOk b.name b.file_extension fl2 ∈ (get_interface_instance iface fl loader opts).1 := by
  by_cases hid : opts.storage_id = ""
  · refine ⟨io_flag iface, Or.inl rfl, ?_⟩
    have h2 : (detect_loop (io_flag iface) ((io_flag iface) == IOFlag.READ_WRITE)
        (extensionOf opts.uri) opts.uri loader).2 = Res.found b := by
      simpa [get_interface_instance, hid, detect_and_open_storage] using h
    have hmain := detect_loop_found_open (io_flag iface) _ _ _ loader b h2
    refine ⟨hmain.1, ?_⟩
    simpa [get_interface_instance, hid, detect_and_open_storage] using hmain.2
  · cases hfind : loader.find? (fun x => x.name == opts.storage_id) with
    | none => simp [get_interface_instance, hid, hfind] at h
    | some x =>
      by_cases hc : x.create_ok = true
      · by_cases ho : x.open_ok opts.uri fl = true
        · have hxb : x = b := by
            simpa [get_interface_instance, hid, hfind, hc, ho] using h
          subst hxb
          exact ⟨fl, Or.inr rfl, ho, by simp [get_interface_instance, hid, hfind, hc, ho]⟩
        · simp [get_interface_instance, hid, hfind, hc, ho] at h
      · simp [get_interface_instance, hid, hfind, hc] at h

/-- Any instance returned by `open_read_only` had a successful open call,
recorded in the returned trace. -/
theorem open_read_only_found (roL rwL : List Backend) (opts : StorageOptions) (b : Backend)
    (h : (open_read_only roL rwL opts).2 = Res.found b) :
    ∃ fl, b.open_ok opts.uri fl = true ∧
      Event.openOk b.name b.file_extension fl ∈ (open_read_only roL rwL opts).1 := by
  cases hg : get_interface_instance Interface.ReadOnlyInterface IOFlag.READ_ONLY roL opts with
  | mk tr1 r1 =>
    cases r1 with
    | found x =>
      have hx : open_read_only roL rwL opts = (tr1, Res.found x) := by
        simp [open_read_only, hg]
      rw [hx] at h ⊢
      have hxb : x = b := by simpa using h
      subst hxb
      rcases gii_found_open _ _ _ _ x (by rw [hg]) with ⟨fl2, _, hopen, hmem⟩
      rw [hg] at hmem
      exact ⟨fl2, hopen, hmem⟩
    | noInstance =>
      have hx : open_read_only roL rwL opts =
          (tr1 ++ (get_interface_instance Interface.ReadWriteInterface IOFlag.READ_ONLY rwL opts).1,
           (get_interface_instance Interface.ReadWriteInterface IOFlag.READ_ONLY rwL opts).2) := by
        simp [open_read_only, hg]
      rw [hx] at h ⊢
      rcases gii_found_open Interface.ReadWriteInterface IOFlag.READ_ONLY rwL opts b h with
        ⟨fl2, _, hopen, hmem⟩
      exact ⟨fl2, hopen, by simp [hmem]⟩
    | exn =>
      have hx : open_read_only roL rwL opts = (tr1, Res.exn) := by
        simp [open_read_only, hg]
      rw [hx] at h
      simp at h

/-! Closed evaluations of the model at the concrete inputs used by the
counterexample and code-bug theorems. -/

/-- C1, counterexample.  Location `trace.log`, read-write auto-detect,
registry holding only backend `A` with declared extension `db`: the claim
says `A` is never instantiated, but `createUnmanagedInstance` runs before
the extension gate (line 68 precedes line 69), so the trace records the
instantiation of the non-matching backend. -/
theorem c1_nonmatching_instantiated_counterexample :
    backendA.file_extension ≠ extensionOf "trace.log" ∧
    (detect_and_open_storage IOFlag.READ_WRITE [backendA]
        { uri := "trace.log", storage_id := "" }).1 = [Event.created "A"] :=
  ⟨by decide, rfl⟩

/-- C2, code-bug evaluation.  Read-only registry empty, read-write
registry holding backend `C` (extension `db3`, opens only read-only),
location `bag.db3`, no explicit id.  Resolving the read-write registry
with io mode `READ_ONLY` would succeed, yet `open_read_only` returns no
instance, because line 103 drops the `READ_ONLY` template flag and the
fallback runs `detect_and_open_storage` with the default `READ_WRITE`
flag — the trace even shows the `READ_WRITE` open attempt. -/
theorem c2_fallback_flag_eval :
    (detect_and_open_storage IOFlag.READ_ONLY [roBackendC]
        { uri := "bag.db3", storage_id := "" }).2 = Res.found roBackendC ∧
    open_read_only [] [roBackendC] { uri := "bag.db3", storage_id := "" } =
      ([Event.created "C", Event.openFail "C" "db3" IOFlag.READ_WRITE], Res.noInstance) :=
  ⟨rfl, rfl⟩

/-- C3, counterexample.  Explicit id `A` is present in the registry, but
its instantiation throws (caught at lines 119-126), so zero open calls
occur — the claim's "exactly one open call" fails. -/
theorem c3_create_failure_no_open_counterexample :
    [backendAbad].find? (fun b => b.name == "A") = some backendAbad ∧
    get_interface_instance Interface.ReadWriteInterface IOFlag.READ_WRITE [backendAbad]
        { uri := "trace.db", storage_id := "A" } =
      ([Event.createFailed "A"], Res.noInstance) :=
  ⟨rfl, rfl⟩

/-- C5, counterexample.  Read-only auto-detect over `[bad, good]` where
`bad`'s instantiation throws and `good` would open successfully: the
exception at line 68 escapes, the loop does not continue to `good`, and
the result is neither an instance nor `nullptr`. -/
theorem c5_create_abort_counterexample :
    goodBackend.open_ok "bag.db3" IOFlag.READ_ONLY = true ∧
    detect_and_open_storage IOFlag.READ_ONLY [badBackend, goodBackend]
        { uri := "bag.db3", storage_id := "" } =
      ([Event.createFailed "bad"], Res.exn) :=
  ⟨rfl, rfl⟩

/-- C7, code-bug evaluation.  Auto-detect with a registry whose sole
backend throws in `createUnmanagedInstance`: both public factory
operations let the exception escape instead of returning no instance. -/
theorem c7_exception_escape_eval :
    open_read_write [badBackend] { uri := "x.db3", storage_id := "" } =
      ([Event.createFailed "bad"], Res.exn) ∧
    open_read_only [badBackend] [] { uri := "x.db3", storage_id := "" } =
      ([Event.createFailed "bad"], Res.exn) :=
  ⟨rfl, rfl⟩

/-- C8, code-bug evaluation.  Read-write auto-detect over `[bad, good]`
on `x.db3` (both declare `db3`): the claim says an instantiation failure
is logged and the loop continues, but `createUnmanagedInstance` is outside
the try block, so the resolution aborts with the exception and `good` —
which alone would be selected — is never reached. -/
theorem c8_instantiation_failure_fatal_eval :
    detect_and_open_storage IOFlag.READ_WRITE [badBackend, goodBackend]
        { uri := "x.db3", storage_id := "" } =
      ([Event.createFailed "bad"], Res.exn) ∧
    (detect_and_open_storage IOFlag.READ_WRITE [goodBackend]
        { uri := "x.db3", storage_id := "" }).2 = Res.found goodBackend :=
  ⟨rfl, rfl⟩

/-- C9, counterexample.  Location `noext` has the empty extension token,
and the registry holds backend `Z` whose declared extension is the empty
string: the gate compares strings for equality, the empty token matches
`Z`, and `Z` is instantiated and opened — the claim's "the empty token
matches no backend, so no candidate is attempted" fails. -/
theorem c9_empty_extension_counterexample :
    extensionOf "noext" = "" ∧
    detect_and_open_storage IOFlag.READ_WRITE [backendZ]
        { uri := "noext", storage_id := "" } =
      ([Event.created "Z", Event.openOk "Z" "" IOFlag.READ_WRITE], Res.found backendZ) :=
  ⟨rfl, rfl⟩

/-! Claim theorems. -/

/-- C1, amended.  In every read-write auto-detect resolution, every open
attempt (successful or failed) is on a backend whose declared extension
equals the location's extension token; however, every enumerated backend
is instantiated first in order to query its declared extension, so gating
restricts opens, not instantiations. -/
theorem c1_rw_gating_amended (loader : List Backend) (opts : StorageOptions)
    (n e : String) (fl : IOFlag)
    (h : Event.openOk n e fl ∈ (detect_and_open_storage IOFlag.READ_WRITE loader opts).1 ∨
         Event.openFail n e fl ∈ (detect_and_open_storage IOFlag.READ_WRITE loader opts).1) :
    e = extensionOf opts.uri ∧ fl = IOFlag.READ_WRITE :=
  detect_loop_open_events_ext IOFlag.READ_WRITE (extensionOf opts.uri) opts.uri loader n e fl h

/-- C1 witness: a matching backend is opened and the theorem applies. -/
theorem c1_rw_gating_amended_witness :
    "db3" = extensionOf "x.db3" ∧ IOFlag.READ_WRITE = IOFlag.READ_WRITE :=
  c1_rw_gating_amended [goodBackend] { uri := "x.db3", storage_id := "" }
    "good" "db3" IOFlag.READ_WRITE (Or.inl (by decide))

/-- C3, amended.  For a non-empty explicit id present in the registry
whose backend instantiates successfully, exactly one open call occurs, on
that backend only, with the requested flag; if it fails the result is no
instance and no other candidate appears in the trace. -/
theorem c3_explicit_single_open_amended (iface : Interface) (fl : IOFlag)
    (loader : List Backend) (opts : StorageOptions) (b : Backend)
    (hid : opts.storage_id ≠ "")
    (hfind : loader.find? (fun x => x.name == opts.storage_id) = some b)
    (hc : b.create_ok = true) :
    get_interface_instance iface fl loader opts =
      if b.open_ok opts.uri fl then
        ([Event.created b.name, Event.openOk b.name b.file_extension fl], Res.found b)
      else
        ([Event.created b.name, Event.openFail b.name b.file_extension fl], Res.noInstance) :=
  gii_explicit_present iface fl loader opts b hid hfind hc

/-- C3 witness: explicit id `A` over a registry also holding `good`. -/
theorem c3_explicit_single_open_amended_witness :
    get_interface_instance Interface.ReadWriteInterface IOFlag.READ_WRITE
        [goodBackend, backendA] { uri := "trace.db", storage_id := "A" } =
      if backendA.open_ok "trace.db" IOFlag.READ_WRITE then
        ([Event.created "A", Event.openOk "A" "db" IOFlag.READ_WRITE], Res.found backendA)
      else
        ([Event.created "A", Event.openFail "A" "db" IOFlag.READ_WRITE], Res.noInstance) :=
  c3_explicit_single_open_amended Interface.ReadWriteInterface IOFlag.READ_WRITE
    [goodBackend, backendA] { uri := "trace.db", storage_id := "A" } backendA
    (by decide) rfl rfl

/-- C4.  A non-empty explicit id absent from the registry's declared
classes yields no instance with an empty trace: no backend is
instantiated and no open call occurs. -/
theorem c4_unknown_explicit_id (iface : Interface) (fl : IOFlag)
    (loader : List Backend) (opts : StorageOptions)
    (hid : opts.storage_id ≠ "")
    (habs : ∀ b ∈ loader, b.name ≠ opts.storage_id) :
    get_interface_instance iface fl loader opts = ([], Res.noInstance) :=
  gii_explicit_absent iface fl loader opts hid habs

/-- C4 witness: unknown id `nope` over a non-empty registry. -/
theorem c4_unknown_explicit_id_witness :
    get_interface_instance Interface.ReadWriteInterface IOFlag.READ_WRITE
        [backendA, goodBackend] { uri := "x.db", storage_id := "nope" } =
      ([], Res.noInstance) :=
  c4_unknown_explicit_id Interface.ReadWriteInterface IOFlag.READ_WRITE
    [backendA, goodBackend] { uri := "x.db", storage_id := "nope" }
    (by decide) (by decide)

/-- C5, amended.  Provided every candidate's instantiation succeeds (an
instantiation failure aborts the resolution with an escaping exception),
read-only auto-detect applies no extension filtering, attempts candidates
in enumeration order, follows each failed open with the next candidate,
stops at the first successful open, and yields no instance only when
every open failed. -/
theorem c5_ro_auto_first_success_amended (loader : List Backend) (opts : StorageOptions)
    (hc : ∀ b ∈ loader, b.create_ok = true) :
    detect_and_open_storage IOFlag.READ_ONLY loader opts =
      (ro_attempt_trace opts.uri loader,
       match ro_first_success opts.uri loader with
       | some b => Res.found b
       | none => Res.noInstance) :=
  detect_loop_ro (extensionOf opts.uri) opts.uri loader hc

/-- C5 witness: a two-candidate registry where the first open fails. -/
theorem c5_ro_auto_first_success_amended_witness :
    detect_and_open_storage IOFlag.READ_ONLY [backendA, goodBackend]
        { uri := "bag.db3", storage_id := "" } =
      (ro_attempt_trace "bag.db3" [backendA, goodBackend],
       match ro_first_success "bag.db3" [backendA, goodBackend] with
       | some b => Res.found b
       | none => Res.noInstance) :=
  c5_ro_auto_first_success_amended [backendA, goodBackend]
    { uri := "bag.db3", storage_id := "" } (by decide)

/-- C6.  Any instance returned by `open_read_write` or `open_read_only`
had a successful open invoked on it (recorded in the trace); the result
type carries at most one instance per resolution. -/
theorem c6_returned_instance_opened (roLoader rwLoader : List Backend)
    (opts : StorageOptions) (b : Backend) :
    ((open_read_write rwLoader opts).2 = Res.found b →
       b.open_ok opts.uri IOFlag.READ_WRITE = true ∧
       Event.openOk b.name b.file_extension IOFlag.READ_WRITE ∈
         (open_read_write rwLoader opts).1) ∧
    ((open_read_only roLoader rwLoader opts).2 = Res.found b →
       ∃ fl, b.open_ok opts.uri fl = true ∧
         Event.openOk b.name b.file_extension fl ∈
           (open_read_only roLoader rwLoader opts).1) := by
  constructor
  · intro h
    rcases gii_found_open Interface.ReadWriteInterface IOFlag.READ_WRITE rwLoader opts b h
      with ⟨fl2, hfl, hopen, hmem⟩
    have hfl2 : fl2 = IOFlag.READ_WRITE := by
      rcases hfl with h1 | h1 <;> simpa [io_flag] using h1
    subst hfl2
    exact ⟨hopen, hmem⟩
  · intro h
    exact open_read_only_found roLoader rwLoader opts b h

/-- C6 witness: a successful read-write resolution. -/
theorem c6_returned_instance_opened_witness :
    goodBackend.open_ok "x.db3" IOFlag.READ_WRITE = true ∧
    Event.openOk "good" "db3" IOFlag.READ_WRITE ∈
      (open_read_write [goodBackend] { uri := "x.db3", storage_id := "" }).1 :=
  (c6_returned_instance_opened [] [goodBackend]
    { uri := "x.db3", storage_id := "" } goodBackend).1 rfl

/-- C9, amended.  The extension token is the substring after the final
dot of the last path segment, and empty when that segment has no dot; and
in a read-write auto-detect on a location with an empty token, no backend
with a non-empty declared extension gets an open attempt (a backend
declaring the empty extension would still match and be attempted). -/
theorem c9_extension_token_amended :
    (∀ p e : String, '.' ∉ e.data → '/' ∉ e.data →
        extensionOf (p ++ "." ++ e) = e) ∧
    (∀ p seg : String, '.' ∉ seg.data → '/' ∉ seg.data →
        extensionOf (p ++ "/" ++ seg) = "" ∧ extensionOf seg = "") ∧
    (∀ (loader : List Backend) (opts : StorageOptions),
        extensionOf opts.uri = "" →
        (∀ b ∈ loader, b.file_extension ≠ "") →
        ∀ n e fl,
          Event.openOk n e fl ∉ (detect_and_open_storage IOFlag.READ_WRITE loader opts).1 ∧
          Event.openFail n e fl ∉ (detect_and_open_storage IOFlag.READ_WRITE loader opts).1) := by
  refine ⟨extensionOf_append_dot, extensionOf_no_dot_segment, ?_⟩
  intro loader opts hext hne n e fl
  have := detect_loop_empty_ext_no_opens IOFlag.READ_WRITE opts.uri loader hne n e fl
  unfold detect_and_open_storage
  rw [hext]
  exact this

/-- C9 witness: concrete token extraction and a gated-out backend. -/
theorem c9_extension_token_amended_witness :
    extensionOf ("trace" ++ "." ++ "log") = "log" ∧
    Event.openOk "good" "db3" IOFlag.READ_WRITE ∉
      (detect_and_open_storage IOFlag.READ_WRITE [goodBackend]
        { uri := "noext", storage_id := "" }).1 :=
  ⟨c9_extension_token_amended.1 "trace" "log" (by decide) (by decide),
   (c9_extension_token_amended.2.2 [goodBackend] { uri := "noext", storage_id := "" }
     rfl (by decide) "good" "db3" IOFlag.READ_WRITE).1⟩

/-- C10.  An explicit id absent from the read-only registry but present
in the read-write registry is resolved by `open_read_only` through the
fallback, opened with flag `READ_ONLY` (the explicit-id path does use the
requested flag), on the unchanged request. -/
theorem c10_explicit_readonly_fallback (roLoader rwLoader : List Backend)
    (opts : StorageOptions) (b : Backend)
    (hid : opts.storage_id ≠ "")
    (hro : ∀ x ∈ roLoader, x.name ≠ opts.storage_id)
    (hfind : rwLoader.find? (fun x => x.name == opts.storage_id) = some b)
    (hc : b.create_ok = true)
    (ho : b.open_ok opts.uri IOFlag.READ_ONLY = true) :
    (open_read_only roLoader rwLoader opts).2 = Res.found b ∧
    Event.openOk b.name b.file_extension IOFlag.READ_ONLY ∈
      (open_read_only roLoader rwLoader opts).1 := by
  have h1 := gii_explicit_absent Interface.ReadOnlyInterface IOFlag.READ_ONLY
    roLoader opts hid hro
  have h2 := gii_explicit_present Interface.ReadWriteInterface IOFlag.READ_ONLY
    rwLoader opts b hid hfind hc
  rw [if_pos ho] at h2
  have hres : open_read_only roLoader rwLoader opts =
      ([Event.created b.name, Event.openOk b.name b.file_extension IOFlag.READ_ONLY],
        Res.found b) := by
    simp [open_read_only, h1, h2]
  rw [hres]
  exact ⟨rfl, by simp⟩

/-- C10 witness: backend `C` registered read-write only, opened read-only
through the fallback. -/
theorem c10_explicit_readonly_fallback_witness :
    (open_read_only [backendA] [roBackendC] { uri := "bag.db3", storage_id := "C" }).2 =
      Res.found roBackendC ∧
    Event.openOk "C" "db3" IOFlag.READ_ONLY ∈
      (open_read_only [backendA] [roBackendC] { uri := "bag.db3", storage_id := "C" }).1 :=
  c10_explicit_readonly_fallback [backendA] [roBackendC]
    { uri := "bag.db3", storage_id := "C" } roBackendC
    (by decide) (by decide) rfl rfl rfl

end Rosbag2Storage
